import Mathlib

/-!
Shallow embedding of the screenshot baseline/diff comparator of
`src/commentUpvote.mjs` (the `compareScreenshots` function and the
baseline-exists / save-baseline logic of `main`).

Machine integers are modelled as `Nat` (PNG channel bytes are 0..255),
percentages as exact rationals `ℚ` instead of IEEE floats: every numeric
comparison in the claims is far from a float rounding boundary, so the
rational model is faithful where it is used.
-/

namespace Upvote

/-- A byte buffer (file contents / raw RGBA data), as in the Node `Buffer`s
the script passes around. -/
abbrev Buf := List Nat

/-- Error taxonomy of the comparator, named after the spec's taxonomy
(§7): decode failures thrown by the image library, size mismatches thrown
by the pixel-difference library, and missing/unreadable baseline storage. -/
inductive CmpError where
  | imageDecodeError
  | sizeMismatch
  | storageError
deriving DecidableEq, Repr

/-- A decoded image, as produced by `PNG.sync.read`: width, height and a
flat row-major RGBA byte buffer (`originalPng.width`, `originalPng.height`,
`originalPng.data` in the script). -/
structure Image where
  width : Nat
  height : Nat
  data : Buf
deriving DecidableEq, Repr

/-- Modelled from the spec: the PNG decoding done by the external `pngjs`
library (`PNG.sync.read`), whose source is not part of this repository.
Per the spec (§6, §7) the input is a lossless bitmap; unreadable or corrupt
data fails with the decode error. The model's file format is a header
`width :: height ::` followed by exactly `width * height * 4` RGBA bytes,
each below 256; dimensions are positive (the PNG format forbids zero
dimensions, and the spec's data model requires `totalPixels > 0`).
Anything else is corrupt and fails. -/
def decodeImage : Buf → Except CmpError Image
  | w :: h :: data =>
    if 0 < w ∧ 0 < h ∧ data.length = w * h * 4 ∧ data.all (fun b => b < 256) then
      .ok ⟨w, h, data⟩
    else
      .error .imageDecodeError
  | _ => .error .imageDecodeError

/-- Modelled from the spec: the per-channel mismatch test of the external
`pixelmatch` library call (its source is not part of this repository).
Per the spec (§4.1, glossary), two channel bytes differ when their
difference exceeds the threshold 0.1 on a normalized [0,1] scale:
`|a - b| / 255 > 1/10`, i.e. `255 < 10 * |a - b|` over the integers. -/
def channelDiffers (a b : Nat) : Bool := 255 < 10 * Nat.dist a b

/-- Whether pixel `i` (row-major index) of `img1` and `img2` mismatches:
some of its four RGBA channels differs by more than the threshold. -/
def pixelMismatch (img1 img2 : Image) (i : Nat) : Bool :=
  (List.range 4).any fun ch =>
    channelDiffers (img1.data.getD (4 * i + ch) 0) (img2.data.getD (4 * i + ch) 0)

/-- Modelled from the spec: the external `pixelmatch` library call.
Per its documented contract it fails when the two data buffers' lengths
differ, or when they do not match `width * height * 4`; otherwise it
returns the number of mismatched pixels (spec §4.1: "computes, for every
pixel, whether the candidate differs from the baseline by more than a
fixed per-channel threshold ..., counts mismatches"). The diff output
image is ignored (the script never uses `diff`). -/
def pixelmatch (img1 img2 : Image) (width height : Nat) : Except CmpError Nat :=
  if img1.data.length ≠ img2.data.length then .error .sizeMismatch
  else if img1.data.length ≠ width * height * 4 then .error .sizeMismatch
  else .ok ((List.range (width * height)).filter (fun i => pixelMismatch img1 img2 i)).length

/-- The spec's Comparison Result record (§3), extended over the script's
bare boolean return so each intermediate value of `compareScreenshots`
(`mismatchedPixels`, `width * height`, `similarity`, the `>= 90` verdict)
is observable. -/
structure ComparisonResult where
  mismatchedPixels : Nat
  totalPixels : Nat
  similarity : ℚ
  passed : Bool
deriving DecidableEq, Repr

/-- Core of `compareScreenshots` after both PNGs are decoded
(src/commentUpvote.mjs lines 316-331): destructure `width`, `height` from
the ORIGINAL image only, run `pixelmatch`, then
`mismatchPercentage = (mismatchedPixels / (width * height)) * 100` and
`similarity = 100 - mismatchPercentage`; the verdict is
`similarity >= 90`. The script's local bindings `width`, `height`,
`mismatchPercentage` and `similarity` are inlined here. -/
def compareImagesFull (originalPng currentPng : Image) : Except CmpError ComparisonResult :=
  match pixelmatch originalPng currentPng originalPng.width originalPng.height with
  | .error e => .error e
  | .ok mismatchedPixels =>
    .ok { mismatchedPixels := mismatchedPixels
          totalPixels := originalPng.width * originalPng.height
          similarity := 100 -
            ((mismatchedPixels : ℚ) /
              ((originalPng.width * originalPng.height : Nat) : ℚ)) * 100
          passed := decide ((90 : ℚ) ≤ 100 -
            ((mismatchedPixels : ℚ) /
              ((originalPng.width * originalPng.height : Nat) : ℚ)) * 100) }

/-- `compareScreenshots(originalScreenshot, currentScreenshot)`
(src/commentUpvote.mjs lines 312-332): read and decode both files, then
compare. A decode failure is thrown (propagated), never caught inside the
function. -/
def compareScreenshotsFull (originalBuffer currentBuffer : Buf) : Except CmpError ComparisonResult :=
  match decodeImage originalBuffer with
  | .error e => .error e
  | .ok originalPng =>
    match decodeImage currentBuffer with
    | .error e => .error e
    | .ok currentPng => compareImagesFull originalPng currentPng

/-- The script's actual return value: the boolean `similarity >= 90`. -/
def compareScreenshots (originalBuffer currentBuffer : Buf) : Except CmpError Bool :=
  (compareScreenshotsFull originalBuffer currentBuffer).map ComparisonResult.passed

/-- Persistent baseline storage: the `screenshots/baseline_<key>.png`
files, as a map from key to stored file bytes. -/
def Storage := String → Option Buf

/-- `fs.existsSync('screenshots/baseline_<key>.png')`
(src/commentUpvote.mjs lines 401 and 450). No side effects. -/
def hasBaseline (s : Storage) (key : String) : Bool := (s key).isSome

/-- `writeFile('screenshots/baseline_<key>.png', await readFile(...))`
(src/commentUpvote.mjs lines 412 and 461): store the candidate's bytes
under the key, overwriting any previous entry. -/
def establishBaseline (s : Storage) (key : String) (buf : Buf) : Storage :=
  fun k => if k = key then some buf else s k

/-- The keyed comparison of `main` (src/commentUpvote.mjs lines 403-409):
read the stored baseline for `key` (a missing file makes `readFile` throw,
modelled as the storage error) and run `compareScreenshots` against the
candidate bytes. -/
def compare (s : Storage) (key : String) (candidateBuffer : Buf) :
    Except CmpError ComparisonResult :=
  match s key with
  | none => .error .storageError
  | some baselineBuffer => compareScreenshotsFull baselineBuffer candidateBuffer

/-- The storage-mutating operations available to the workflow: the only
write the script ever performs is saving a baseline. `compare` and
`hasBaseline` are read-only. -/
inductive StoreOp where
  | establish (key : String) (buf : Buf)

/-- Run a sequence of storage operations left to right. -/
def applyOps : List StoreOp → Storage → Storage
  | [], s => s
  | .establish k b :: ops, s => applyOps ops (establishBaseline s k b)

/-- The spec's wording of a mismatched pixel (§4.1, glossary): some channel
of pixel `i` differs by more than 0.1 on the normalized [0,1] scale. -/
def specPixelDiffers (img1 img2 : Image) (i : Nat) : Bool :=
  (List.range 4).any fun ch =>
    decide ((1 : ℚ) / 10 <
      |(img1.data.getD (4 * i + ch) 0 : ℚ) / 255 - (img2.data.getD (4 * i + ch) 0 : ℚ) / 255|)

/-- The mismatched-pixel count computed inside `compareImagesFull`
(the value `pixelmatch` returns when its size checks pass). -/
def mcount (originalPng currentPng : Image) : Nat :=
  ((List.range (originalPng.width * originalPng.height)).filter
    (fun i => pixelMismatch originalPng currentPng i)).length

/-- The comparison record `compareImagesFull` produces when `pixelmatch`
succeeds, written out as a normal form for the lemmas below. -/
def mkResult (originalPng currentPng : Image) : ComparisonResult :=
  { mismatchedPixels := mcount originalPng currentPng
    totalPixels := originalPng.width * originalPng.height
    similarity := 100 -
      ((mcount originalPng currentPng : ℚ) /
        ((originalPng.width * originalPng.height : Nat) : ℚ)) * 100
    passed := decide ((90 : ℚ) ≤ 100 -
      ((mcount originalPng currentPng : ℚ) /
        ((originalPng.width * originalPng.height : Nat) : ℚ)) * 100) }

lemma decodeImage_ok_inv {buf : Buf} {img : Image} (h : decodeImage buf = .ok img) :
    0 < img.width ∧ 0 < img.height ∧ img.data.length = img.width * img.height * 4 := by
  rcases buf with _ | ⟨w, _ | ⟨hgt, data⟩⟩
  · exact Except.noConfusion h
  · exact Except.noConfusion h
  · simp only [decodeImage] at h
    split at h
    next hc =>
      cases h
      exact ⟨hc.1, hc.2.1, hc.2.2.1⟩
    next hc => exact Except.noConfusion h

lemma pixelmatch_eq_ok {img1 img2 : Image} {w h : Nat}
    (h1 : img1.data.length = img2.data.length)
    (h2 : img1.data.length = w * h * 4) :
    pixelmatch img1 img2 w h =
      .ok ((List.range (w * h)).filter (fun i => pixelMismatch img1 img2 i)).length := by
  unfold pixelmatch
  rw [if_neg (not_not.mpr h1), if_neg (not_not.mpr h2)]

lemma pixelmatch_eq_err {img1 img2 : Image} {w h : Nat}
    (h1 : img1.data.length ≠ img2.data.length) :
    pixelmatch img1 img2 w h = .error .sizeMismatch := by
  unfold pixelmatch
  rw [if_pos h1]

lemma pixelmatch_eq_err2 {img1 img2 : Image} {w h : Nat}
    (h1 : img1.data.length = img2.data.length)
    (h2 : img1.data.length ≠ w * h * 4) :
    pixelmatch img1 img2 w h = .error .sizeMismatch := by
  unfold pixelmatch
  rw [if_neg (not_not.mpr h1), if_pos h2]

lemma compareImagesFull_eq_ok (originalPng currentPng : Image)
    (h1 : originalPng.data.length = currentPng.data.length)
    (h2 : originalPng.data.length = originalPng.width * originalPng.height * 4) :
    compareImagesFull originalPng currentPng = .ok (mkResult originalPng currentPng) := by
  unfold compareImagesFull
  rw [pixelmatch_eq_ok h1 h2]
  rfl

lemma compareImagesFull_ok_inv {originalPng currentPng : Image} {r : ComparisonResult}
    (h : compareImagesFull originalPng currentPng = .ok r) :
    originalPng.data.length = currentPng.data.length ∧
    originalPng.data.length = originalPng.width * originalPng.height * 4 ∧
    r = mkResult originalPng currentPng := by
  by_cases h1 : originalPng.data.length = currentPng.data.length
  · by_cases h2 : originalPng.data.length = originalPng.width * originalPng.height * 4
    · rw [compareImagesFull_eq_ok originalPng currentPng h1 h2] at h
      exact ⟨h1, h2, (Except.ok.inj h).symm⟩
    · unfold compareImagesFull at h
      rw [pixelmatch_eq_err2 h1 h2] at h
      exact Except.noConfusion h
  · unfold compareImagesFull at h
    rw [pixelmatch_eq_err h1] at h
    exact Except.noConfusion h

lemma compareScreenshotsFull_eq {ob cb : Buf} {imgO imgC : Image}
    (ho : decodeImage ob = .ok imgO) (hc : decodeImage cb = .ok imgC) :
    compareScreenshotsFull ob cb = compareImagesFull imgO imgC := by
  unfold compareScreenshotsFull
  rw [ho, hc]

lemma compareScreenshotsFull_err1 {ob : Buf} (cb : Buf) {e : CmpError}
    (h : decodeImage ob = .error e) :
    compareScreenshotsFull ob cb = .error e := by
  unfold compareScreenshotsFull
  rw [h]

lemma compareScreenshotsFull_err2 {ob cb : Buf} {imgO : Image} {e : CmpError}
    (ho : decodeImage ob = .ok imgO) (h : decodeImage cb = .error e) :
    compareScreenshotsFull ob cb = .error e := by
  unfold compareScreenshotsFull
  rw [ho, h]

lemma compareScreenshotsFull_ok_inv {ob cb : Buf} {r : ComparisonResult}
    (h : compareScreenshotsFull ob cb = .ok r) :
    ∃ imgO imgC, decodeImage ob = .ok imgO ∧ decodeImage cb = .ok imgC ∧
      compareImagesFull imgO imgC = .ok r := by
  unfold compareScreenshotsFull at h
  cases hdo : decodeImage ob with
  | error e =>
    rw [hdo] at h
    exact Except.noConfusion h
  | ok imgO =>
    rw [hdo] at h
    cases hdc : decodeImage cb with
    | error e =>
      rw [hdc] at h
      exact Except.noConfusion h
    | ok imgC =>
      rw [hdc] at h
      exact ⟨imgO, imgC, rfl, rfl, h⟩

lemma pixelMismatch_self (img : Image) (i : Nat) : pixelMismatch img img i = false := by
  simp [pixelMismatch, channelDiffers, Nat.dist_self]

lemma mcount_self (img : Image) : mcount img img = 0 := by
  simp [mcount, pixelMismatch_self]

lemma compareScreenshotsFull_self (buf : Buf) (img : Image) (h : decodeImage buf = .ok img) :
    compareScreenshotsFull buf buf =
      .ok { mismatchedPixels := 0, totalPixels := img.width * img.height
            similarity := 100, passed := true } := by
  obtain ⟨-, -, hlen⟩ := decodeImage_ok_inv h
  rw [compareScreenshotsFull_eq h h, compareImagesFull_eq_ok img img rfl hlen]
  unfold mkResult
  rw [mcount_self]
  norm_num

lemma length_filter_mono {l : List Nat} {p q : Nat → Bool}
    (h : ∀ a ∈ l, p a = true → q a = true) :
    (l.filter p).length ≤ (l.filter q).length := by
  induction l with
  | nil => exact Nat.le_refl 0
  | cons a l ih =>
    have ih2 := ih (fun x hx => h x (List.mem_cons_of_mem a hx))
    by_cases hp : p a = true
    · rw [List.filter_cons_of_pos hp, List.filter_cons_of_pos (h a (List.mem_cons_self a l) hp)]
      exact Nat.succ_le_succ ih2
    · rw [List.filter_cons_of_neg (by simpa using hp)]
      by_cases hq : q a = true
      · rw [List.filter_cons_of_pos hq]
        exact Nat.le_trans ih2 (Nat.le_succ _)
      · rw [List.filter_cons_of_neg (by simpa using hq)]
        exact ih2

lemma cast_dist (a b : Nat) : ((Nat.dist a b : Nat) : ℚ) = |(a : ℚ) - (b : ℚ)| := by
  rcases Nat.le_total a b with hab | hba
  · rw [Nat.dist_eq_sub_of_le hab, Nat.cast_sub hab, abs_sub_comm,
      abs_of_nonneg (sub_nonneg.mpr (by exact_mod_cast hab))]
  · rw [Nat.dist_comm, Nat.dist_eq_sub_of_le hba, Nat.cast_sub hba,
      abs_of_nonneg (sub_nonneg.mpr (by exact_mod_cast hba))]

lemma channelDiffers_iff (a b : Nat) :
    channelDiffers a b = true ↔ (1 : ℚ) / 10 < |(a : ℚ) / 255 - (b : ℚ) / 255| := by
  have habs : |(a : ℚ) / 255 - (b : ℚ) / 255| = ((Nat.dist a b : Nat) : ℚ) / 255 := by
    rw [div_sub_div_same, abs_div, cast_dist]
    norm_num
  rw [show channelDiffers a b = decide (255 < 10 * Nat.dist a b) from rfl,
    decide_eq_true_iff, habs, div_lt_div_iff₀ (by norm_num) (by norm_num), one_mul]
  constructor
  · intro hlt
    exact_mod_cast (by omega : 255 < Nat.dist a b * 10)
  · intro hlt
    have : 255 < Nat.dist a b * 10 := by exact_mod_cast hlt
    omega

lemma pixelMismatch_eq_spec (img1 img2 : Image) (i : Nat) :
    pixelMismatch img1 img2 i = specPixelDiffers img1 img2 i := by
  rw [Bool.eq_iff_iff]
  unfold pixelMismatch specPixelDiffers
  simp only [List.any_eq_true, List.mem_range]
  constructor
  · rintro ⟨ch, hch, hdif⟩
    exact ⟨ch, hch, by rw [decide_eq_true_iff]; exact (channelDiffers_iff _ _).mp hdif⟩
  · rintro ⟨ch, hch, hdif⟩
    exact ⟨ch, hch, (channelDiffers_iff _ _).mpr (by rw [decide_eq_true_iff] at hdif; exact hdif)⟩

lemma hasBaseline_establish_self (s : Storage) (key : String) (buf : Buf) :
    hasBaseline (establishBaseline s key buf) key = true := by
  show (if key = key then some buf else s key).isSome = true
  rw [if_pos rfl]
  rfl

lemma hasBaseline_applyOps (s : Storage) (key : String) (ops : List StoreOp)
    (h : hasBaseline s key = true) : hasBaseline (applyOps ops s) key = true := by
  induction ops generalizing s with
  | nil => exact h
  | cons op ops ih =>
    cases op with
    | establish k b =>
      apply ih
      show (if key = k then some b else s key).isSome = true
      by_cases hk : key = k
      · rw [if_pos hk]
        rfl
      · rw [if_neg hk]
        exact h

/-- Evaluate a concrete comparison: once the Nat-level mismatch count and
the rational arithmetic are supplied, the full result record follows. -/
lemma concrete_eval {ob cb : Buf} (imgO imgC : Image)
    (ho : decodeImage ob = .ok imgO) (hc : decodeImage cb = .ok imgC)
    (h1 : imgO.data.length = imgC.data.length)
    {m t : Nat} (hm : mcount imgO imgC = m) (ht : imgO.width * imgO.height = t)
    {q : ℚ} (hq : 100 - ((m : ℚ) / ((t : Nat) : ℚ)) * 100 = q)
    {b : Bool} (hb : decide ((90 : ℚ) ≤ q) = b) :
    compareScreenshotsFull ob cb =
      .ok { mismatchedPixels := m, totalPixels := t, similarity := q, passed := b } := by
  obtain ⟨-, -, h2⟩ := decodeImage_ok_inv ho
  rw [compareScreenshotsFull_eq ho hc, compareImagesFull_eq_ok imgO imgC h1 h2]
  unfold mkResult
  rw [hm, ht, hq, hb]

end Upvote

deriving instance DecidableEq for Except

namespace Upvote

/-- The 16 RGBA bytes of a 2-by-2 all-white image. -/
def whiteData16 : Buf := List.replicate 16 255

/-- Encoded 2-by-2 all-white image. -/
def white2x2Buf : Buf := 2 :: 2 :: whiteData16

/-- RGBA bytes of a 2-by-2 white image whose first pixel is fully black. -/
def blackFirstData : Buf := [0, 0, 0, 255] ++ List.replicate 12 255

/-- Encoded 2-by-2 white image with one fully black pixel. -/
def cand2x2Buf : Buf := 2 :: 2 :: blackFirstData

/-- Encoded 1-by-4 all-white image (same byte count as the 2-by-2 one). -/
def bufRow1x4 : Buf := 1 :: 4 :: whiteData16

/-- Encoded 4-by-1 all-white image (same byte count as the 2-by-2 one). -/
def bufCol4x1 : Buf := 4 :: 1 :: whiteData16

/-- Encoded 1-by-1 all-white image. -/
def bufWhite1x1 : Buf := [1, 1, 255, 255, 255, 255]

/-- Decoded 2-by-2 all-white image. -/
def imgWhite2x2 : Image := ⟨2, 2, whiteData16⟩

/-- Decoded 2-by-2 image with one black pixel. -/
def imgCand2x2 : Image := ⟨2, 2, blackFirstData⟩

/-- Decoded 1-by-1 all-white image. -/
def imgWhite1x1 : Image := ⟨1, 1, [255, 255, 255, 255]⟩

/-- The comparison record for the 2-by-2 one-black-pixel scenario. -/
def rOneBlack : ComparisonResult := ⟨1, 4, 75, false⟩

/-- A baseline store with no baselines recorded. -/
def emptyStorage : Storage := fun _ => none

/-- A buffer too short to be an image file: corrupt input. -/
def corruptBuf : Buf := [1, 1]

lemma eval_white_cand : compareScreenshotsFull white2x2Buf cand2x2Buf = .ok rOneBlack :=
  concrete_eval imgWhite2x2 imgCand2x2 (by decide) (by decide) (by decide) (by decide)
    (by decide) (by norm_num) (decide_eq_false (by norm_num))

lemma eval_white_white : compareScreenshotsFull white2x2Buf white2x2Buf = .ok ⟨0, 4, 100, true⟩ :=
  concrete_eval imgWhite2x2 imgWhite2x2 (by decide) (by decide) (by decide) (by decide)
    (by decide) (by norm_num) (decide_eq_true (by norm_num))

lemma eval_row_col : compareScreenshotsFull bufRow1x4 bufCol4x1 = .ok ⟨0, 4, 100, true⟩ :=
  concrete_eval ⟨1, 4, whiteData16⟩ ⟨4, 1, whiteData16⟩ (by decide) (by decide) (by decide)
    (by decide) (by decide) (by norm_num) (decide_eq_true (by norm_num))

lemma decode_white2x2 : decodeImage white2x2Buf = .ok imgWhite2x2 := by decide

lemma decode_cand2x2 : decodeImage cand2x2Buf = .ok imgCand2x2 := by decide

lemma imagesFull_white_white : compareImagesFull imgWhite2x2 imgWhite2x2 = .ok ⟨0, 4, 100, true⟩ := by
  have h := eval_white_white
  rw [compareScreenshotsFull_eq decode_white2x2 decode_white2x2] at h
  exact h

lemma imagesFull_white_cand : compareImagesFull imgWhite2x2 imgCand2x2 = .ok rOneBlack := by
  have h := eval_white_cand
  rw [compareScreenshotsFull_eq decode_white2x2 decode_cand2x2] at h
  exact h

/-- C1: for every pair of same-dimension images, the comparison's
`totalPixels` is `width * height`, its `similarityPercent` equals
`100 * (1 - mismatchedPixelCount / totalPixels)`, and
`mismatchedPixelCount` is the number of pixels some channel of which
differs by more than the 0.1 normalized threshold. -/
theorem similarity_formula (ob cb : Buf) (imgO imgC : Image) (r : ComparisonResult)
    (ho : decodeImage ob = .ok imgO) (hc : decodeImage cb = .ok imgC)
    (hw : imgO.width = imgC.width) (hh : imgO.height = imgC.height)
    (hr : compareScreenshotsFull ob cb = .ok r) :
    r.totalPixels = imgO.width * imgO.height ∧
    r.similarity = 100 * (1 - (r.mismatchedPixels : ℚ) / (r.totalPixels : ℚ)) ∧
    r.mismatchedPixels =
      ((List.range (imgO.width * imgO.height)).filter
        (fun i => specPixelDiffers imgO imgC i)).length := by
  rw [compareScreenshotsFull_eq ho hc] at hr
  obtain ⟨h1, h2, hrr⟩ := compareImagesFull_ok_inv hr
  subst hrr
  refine ⟨rfl, ?_, ?_⟩
  · show (100 : ℚ) - ((mcount imgO imgC : ℚ) / ((imgO.width * imgO.height : Nat) : ℚ)) * 100 =
      100 * (1 - (mcount imgO imgC : ℚ) / ((imgO.width * imgO.height : Nat) : ℚ))
    ring
  · show mcount imgO imgC = _
    unfold mcount
    rw [funext fun i => pixelMismatch_eq_spec imgO imgC i]

/-- C2 counterexample: a 1-by-4 all-white baseline compared against a
4-by-1 all-white candidate has mismatching width and height, yet
`compareScreenshots` returns an ordinary passing result instead of
failing with any error. -/
theorem dimension_mismatch_no_error :
    decodeImage bufRow1x4 = .ok ⟨1, 4, whiteData16⟩ ∧
    decodeImage bufCol4x1 = .ok ⟨4, 1, whiteData16⟩ ∧
    compareScreenshotsFull bufRow1x4 bufCol4x1 =
      .ok { mismatchedPixels := 0, totalPixels := 4, similarity := 100, passed := true } :=
  ⟨by decide, by decide, eval_row_col⟩

/-- C2 amended: `compareScreenshots` performs no dimension check of its
own. With both inputs decodable, the comparison returns an ordinary
result whenever the two RGBA buffers have equal length (even if widths
and heights differ), and fails, with the image library's generic
size-mismatch error rather than a dedicated dimension error, exactly when
the buffer lengths differ. -/
theorem no_dimension_check (ob cb : Buf) (imgO imgC : Image)
    (ho : decodeImage ob = .ok imgO) (hc : decodeImage cb = .ok imgC) :
    (imgO.data.length = imgC.data.length →
      ∃ r, compareScreenshotsFull ob cb = .ok r) ∧
    (imgO.data.length ≠ imgC.data.length →
      compareScreenshotsFull ob cb = .error .sizeMismatch) := by
  constructor
  · intro hlen
    obtain ⟨-, -, h2⟩ := decodeImage_ok_inv ho
    exact ⟨mkResult imgO imgC, by
      rw [compareScreenshotsFull_eq ho hc, compareImagesFull_eq_ok imgO imgC hlen h2]⟩
  · intro hlen
    rw [compareScreenshotsFull_eq ho hc]
    unfold compareImagesFull
    rw [pixelmatch_eq_err hlen]

/-- C3: the comparison passes exactly when the similarity percentage is
at least the 90 threshold. -/
theorem passed_iff_threshold (ob cb : Buf) (r : ComparisonResult)
    (hr : compareScreenshotsFull ob cb = .ok r) :
    r.passed = true ↔ (90 : ℚ) ≤ r.similarity := by
  obtain ⟨imgO, imgC, -, -, hcmp⟩ := compareScreenshotsFull_ok_inv hr
  obtain ⟨-, -, hrr⟩ := compareImagesFull_ok_inv hcmp
  subst hrr
  exact decide_eq_true_iff

/-- C4: the pixel comparison and the similarity denominator use only the
baseline's dimensions: changing the candidate's recorded width and height
(keeping its pixel data) never changes the result, and `totalPixels` is
always the baseline's `width * height`. -/
theorem candidate_dims_ignored (originalPng currentPng : Image) :
    (∀ w h, compareImagesFull originalPng ⟨w, h, currentPng.data⟩ =
      compareImagesFull originalPng currentPng) ∧
    (∀ r, compareImagesFull originalPng currentPng = .ok r →
      r.totalPixels = originalPng.width * originalPng.height) := by
  constructor
  · intro w h
    rfl
  · intro r hr
    obtain ⟨-, -, hrr⟩ := compareImagesFull_ok_inv hr
    subst hrr
    rfl

/-- C5: comparing a decodable image file against a pixel-for-pixel
identical copy of itself yields similarity 100 and a passing verdict. -/
theorem compare_self_identical (buf : Buf) (img : Image) (h : decodeImage buf = .ok img) :
    compareScreenshotsFull buf buf =
      .ok { mismatchedPixels := 0, totalPixels := img.width * img.height
            similarity := 100, passed := true } :=
  compareScreenshotsFull_self buf img h

/-- C6: establishing a baseline under a key and immediately comparing the
same image bytes under that key yields similarity 100 (round trip through
storage). -/
theorem establish_then_compare (s : Storage) (key : String) (buf : Buf) (img : Image)
    (h : decodeImage buf = .ok img) :
    Upvote.compare (establishBaseline s key buf) key buf =
      .ok { mismatchedPixels := 0, totalPixels := img.width * img.height
            similarity := 100, passed := true } := by
  unfold compare
  show (match (if key = key then some buf else s key) with
    | none => Except.error CmpError.storageError
    | some baselineBuffer => compareScreenshotsFull baselineBuffer buf) = _
  rw [if_pos rfl]
  exact compareScreenshotsFull_self buf img h

/-- C7: holding the baseline fixed, if a second candidate's set of
mismatched pixels contains the first's, the second candidate's
similarity percentage is at most the first's. -/
theorem mismatch_superset_mono (o cFst cSnd : Image) (r1 r2 : ComparisonResult)
    (hdw : cFst.width = cSnd.width) (hdh : cFst.height = cSnd.height)
    (h1 : compareImagesFull o cFst = .ok r1) (h2 : compareImagesFull o cSnd = .ok r2)
    (hsub : ∀ i, i < o.width * o.height →
      pixelMismatch o cFst i = true → pixelMismatch o cSnd i = true) :
    r2.similarity ≤ r1.similarity := by
  obtain ⟨-, -, e1⟩ := compareImagesFull_ok_inv h1
  obtain ⟨-, -, e2⟩ := compareImagesFull_ok_inv h2
  subst e1
  subst e2
  have hm : mcount o cFst ≤ mcount o cSnd := by
    unfold mcount
    exact length_filter_mono fun a ha => hsub a (List.mem_range.mp ha)
  show (100 : ℚ) - ((mcount o cSnd : ℚ) / ((o.width * o.height : Nat) : ℚ)) * 100 ≤
    100 - ((mcount o cFst : ℚ) / ((o.width * o.height : Nat) : ℚ)) * 100
  rcases Nat.eq_zero_or_pos (o.width * o.height) with ht | ht
  · rw [ht]
    norm_num
  · have htq : (0 : ℚ) < ((o.width * o.height : Nat) : ℚ) := by exact_mod_cast ht
    have hdiv : (mcount o cFst : ℚ) / ((o.width * o.height : Nat) : ℚ) ≤
        (mcount o cSnd : ℚ) / ((o.width * o.height : Nat) : ℚ) :=
      (div_le_div_iff_of_pos_right htq).mpr (by exact_mod_cast hm)
    linarith

/-- C8: with a 2-by-2 all-white baseline and a candidate with one of the
four pixels turned fully black, the comparison yields 1 mismatched pixel,
similarity 75, and a failing verdict. -/
theorem scenario_2x2_one_black :
    compareScreenshotsFull white2x2Buf cand2x2Buf =
      .ok { mismatchedPixels := 1, totalPixels := 4, similarity := 75, passed := false } :=
  eval_white_cand

/-- C9: a decode failure of either input makes the comparison fail with
the decode error, and a comparison result is only ever produced from two
successfully decoded images: failures are reported, never treated as
"different" or "same". -/
theorem decode_errors_propagate :
    (∀ ob cb : Buf, decodeImage ob = .error .imageDecodeError →
      compareScreenshotsFull ob cb = .error .imageDecodeError) ∧
    (∀ ob cb : Buf, ∀ imgO : Image, decodeImage ob = .ok imgO →
      decodeImage cb = .error .imageDecodeError →
      compareScreenshotsFull ob cb = .error .imageDecodeError) ∧
    (∀ ob cb : Buf, ∀ r : ComparisonResult, compareScreenshotsFull ob cb = .ok r →
      ∃ imgO imgC, decodeImage ob = .ok imgO ∧ decodeImage cb = .ok imgC) := by
  refine ⟨?_, ?_, ?_⟩
  · intro ob cb h
    exact compareScreenshotsFull_err1 cb h
  · intro ob cb imgO ho h
    exact compareScreenshotsFull_err2 ho h
  · intro ob cb r h
    obtain ⟨imgO, imgC, ho, hc, -⟩ := compareScreenshotsFull_ok_inv h
    exact ⟨imgO, imgC, ho, hc⟩

/-- C10: if no baseline is recorded under a key and one is then
established, every later `hasBaseline` check for that key returns true,
whatever further baselines are stored. -/
theorem establish_sets_hasBaseline (s : Storage) (key : String) (buf : Buf)
    (ops : List StoreOp) (h : hasBaseline s key = false) :
    hasBaseline (applyOps ops (establishBaseline s key buf)) key = true :=
  hasBaseline_applyOps _ key ops (hasBaseline_establish_self s key buf)

/-- Witness for C1, at the 2-by-2 one-black-pixel scenario. -/
theorem similarity_formula_witness :
    rOneBlack.totalPixels = imgWhite2x2.width * imgWhite2x2.height ∧
    rOneBlack.similarity =
      100 * (1 - (rOneBlack.mismatchedPixels : ℚ) / (rOneBlack.totalPixels : ℚ)) ∧
    rOneBlack.mismatchedPixels =
      ((List.range (imgWhite2x2.width * imgWhite2x2.height)).filter
        (fun i => specPixelDiffers imgWhite2x2 imgCand2x2 i)).length :=
  similarity_formula white2x2Buf cand2x2Buf imgWhite2x2 imgCand2x2 rOneBlack
    (by decide) (by decide) rfl rfl eval_white_cand

/-- Witness for the amended C2: with equal buffer lengths a result is
returned, and with differing buffer lengths the size-mismatch error is
raised. -/
theorem no_dimension_check_witness :
    (∃ r, compareScreenshotsFull bufRow1x4 bufCol4x1 = .ok r) ∧
    compareScreenshotsFull bufRow1x4 bufWhite1x1 = .error .sizeMismatch :=
  ⟨(no_dimension_check bufRow1x4 bufCol4x1 ⟨1, 4, whiteData16⟩ ⟨4, 1, whiteData16⟩
      (by decide) (by decide)).1 (by decide),
   (no_dimension_check bufRow1x4 bufWhite1x1 ⟨1, 4, whiteData16⟩ imgWhite1x1
      (by decide) (by decide)).2 (by decide)⟩

/-- Witness for C3, at the 2-by-2 one-black-pixel scenario. -/
theorem passed_iff_threshold_witness :
    rOneBlack.passed = true ↔ (90 : ℚ) ≤ rOneBlack.similarity :=
  passed_iff_threshold white2x2Buf cand2x2Buf rOneBlack eval_white_cand

/-- Witness for C4: giving the candidate fictitious 3-by-9 dimensions
does not change the comparison. -/
theorem candidate_dims_ignored_witness :
    compareImagesFull imgWhite2x2 ⟨3, 9, imgCand2x2.data⟩ =
      compareImagesFull imgWhite2x2 imgCand2x2 ∧
    rOneBlack.totalPixels = imgWhite2x2.width * imgWhite2x2.height :=
  ⟨(candidate_dims_ignored imgWhite2x2 imgCand2x2).1 3 9,
   (candidate_dims_ignored imgWhite2x2 imgCand2x2).2 rOneBlack imagesFull_white_cand⟩

/-- Witness for C5, at a 1-by-1 white image. -/
theorem compare_self_identical_witness :
    compareScreenshotsFull bufWhite1x1 bufWhite1x1 =
      .ok { mismatchedPixels := 0, totalPixels := imgWhite1x1.width * imgWhite1x1.height
            similarity := 100, passed := true } :=
  compare_self_identical bufWhite1x1 imgWhite1x1 (by decide)

/-- Witness for C6, establishing and re-comparing a 1-by-1 white image
in an empty store. -/
theorem establish_then_compare_witness :
    Upvote.compare (establishBaseline emptyStorage "initial" bufWhite1x1) "initial" bufWhite1x1 =
      .ok { mismatchedPixels := 0, totalPixels := imgWhite1x1.width * imgWhite1x1.height
            similarity := 100, passed := true } :=
  establish_then_compare emptyStorage "initial" bufWhite1x1 imgWhite1x1 (by decide)

/-- Witness for C7: going from the unchanged candidate to the
one-black-pixel candidate (a superset of changed pixels) does not raise
the similarity. -/
theorem mismatch_superset_mono_witness :
    rOneBlack.similarity ≤ (⟨0, 4, 100, true⟩ : ComparisonResult).similarity :=
  mismatch_superset_mono imgWhite2x2 imgWhite2x2 imgCand2x2 ⟨0, 4, 100, true⟩ rOneBlack
    rfl rfl imagesFull_white_white imagesFull_white_cand
    (fun i hi hp => absurd hp (by rw [pixelMismatch_self]; exact Bool.false_ne_true))

/-- Witness for C9, with a corrupt two-byte file on either side and the
2-by-2 scenario as a successful comparison. -/
theorem decode_errors_propagate_witness :
    compareScreenshotsFull corruptBuf white2x2Buf = .error .imageDecodeError ∧
    compareScreenshotsFull white2x2Buf corruptBuf = .error .imageDecodeError ∧
    (∃ imgO imgC, decodeImage white2x2Buf = .ok imgO ∧ decodeImage cand2x2Buf = .ok imgC) :=
  ⟨decode_errors_propagate.1 corruptBuf white2x2Buf (by decide),
   decode_errors_propagate.2.1 white2x2Buf corruptBuf imgWhite2x2 (by decide) (by decide),
   decode_errors_propagate.2.2 white2x2Buf cand2x2Buf rOneBlack eval_white_cand⟩

/-- Witness for C10, at the key "initial" in an empty store. -/
theorem establish_sets_hasBaseline_witness :
    hasBaseline (applyOps [] (establishBaseline emptyStorage "initial" bufWhite1x1))
      "initial" = true :=
  establish_sets_hasBaseline emptyStorage "initial" bufWhite1x1 [] rfl

end Upvote
